import Mathlib

/-!
Verification of the tool-provider orchestration core of the calendar-agent
backend: tool filtering and registration, structured workout-slot extraction
with its fallback policy, subprocess output parsing, the process supervisor
(readiness polling, spawn-or-attach, shutdown), and the tool cache.

Each definition is a shallow embedding of the corresponding Python function;
external effects (HTTP probes, the language model, subprocess execution) are
passed in as explicit arguments so the control flow around them is exact.
-/

/- ===== Tool model and registry filtering (src/calendar_agent.py) ===== -/

/-- A tool descriptor as advertised by an MCP provider; only the name is
relevant to the registry's filtering logic. -/
structure McpTool where
  name : String
  deriving DecidableEq, Repr

/-- The fixed exclusion list from init_tools: tools whose schemas break the
calling model's function-calling contract. -/
def excluded_tools : List String :=
  ["update-event", "get-current-time", "get-current-timezone"]

/-- The filtering step of init_tools:
filtered_tools = [tool for tool in all_tools if tool.name not in excluded_tools]. -/
def init_tools (all_tools : List McpTool) : List McpTool :=
  all_tools.filter (fun tool => !(excluded_tools.contains tool.name))

/- ===== WorkoutTimeSlot (src/calendar_agent.py, pydantic model) ===== -/

/-- Decides whether a character is an ASCII decimal digit. -/
def isDig (c : Char) : Bool := '0' ≤ c && c ≤ '9'

/-- The 24-hour time pattern from the pydantic field:
`([0-1]?[0-9]|2[0-3]):[0-5][0-9]` anchored at both ends. -/
def matchesTimePattern (s : String) : Bool :=
  match s.toList with
  | [h1, c, m1, m2] =>
      c == ':' && isDig h1 && ('0' ≤ m1 && m1 ≤ '5') && isDig m2
  | [h1, h2, c, m1, m2] =>
      c == ':' &&
      (((h1 == '0' || h1 == '1') && isDig h2) || (h1 == '2' && '0' ≤ h2 && h2 ≤ '3')) &&
      ('0' ≤ m1 && m1 ≤ '5') && isDig m2
  | _ => false

/-- The WorkoutTimeSlot record: time, reason, duration in minutes. -/
structure WorkoutTimeSlot where
  time : String
  reason : String
  duration_minutes : Int
  deriving DecidableEq, Repr

/-- Pydantic validation of WorkoutTimeSlot: construction succeeds only when
the time matches the pattern; duration_minutes defaults to 60 when the
input leaves it unspecified. -/
def WorkoutTimeSlot.model_validate (time reason : String) (duration : Option Int) :
    Option WorkoutTimeSlot :=
  if matchesTimePattern time then
    some { time := time, reason := reason, duration_minutes := duration.getD 60 }
  else
    none

example : matchesTimePattern "18:00" = true := by decide
example : matchesTimePattern "9:30" = true := by decide
example : matchesTimePattern "23:59" = true := by decide
example : matchesTimePattern "24:00" = false := by decide
example : matchesTimePattern "99:99" = false := by decide

/- ===== Subprocess execution and positional output parsing (app.py) ===== -/

/-- Outcome of the subprocess.run call in run_calendar_agent_sync. -/
structure SubprocessResult where
  returncode : Int
  stdout : String
  stderr : String
  deriving DecidableEq, Repr

/-- The structured result dict built by run_calendar_agent_sync from the
last three output lines. -/
structure StructuredDict where
  time : String
  reason : String
  duration_minutes : Int
  deriving DecidableEq, Repr

/-- Python str.strip(): drop leading and trailing whitespace. -/
def pyStrip (s : String) : String :=
  String.mk ((((s.toList.dropWhile Char.isWhitespace).reverse).dropWhile
    Char.isWhitespace).reverse)

/-- Python str.split(sep) for a one-character separator. -/
def pySplit (s : String) (sep : Char) : List String :=
  (s.toList.splitOn sep).map String.mk

/-- Python int(s) on an already-stripped string: an optional sign followed
by at least one decimal digit; anything else raises ValueError (none). -/
def pyDigits (s : List Char) : Option Int :=
  match s with
  | [] => none
  | _ =>
      s.foldl (fun acc c =>
        acc.bind (fun n => if isDig c then some (n * 10 + ((c.toNat : Int) - 48)) else none))
        (some 0)

/-- Python int(s), handling a leading sign. -/
def pyInt (s : String) : Option Int :=
  match s.toList with
  | '-' :: rest => (pyDigits rest).map (fun n => -n)
  | '+' :: rest => pyDigits rest
  | l => pyDigits l

/-- The time-format check of run_calendar_agent_sync:
`':' in time_line and len(time_line.split(':')) == 2`. -/
def timeFormatCheck (time_line : String) : Bool :=
  time_line.toList.contains ':' && (pySplit time_line ':').length == 2

/-- The positional extraction in run_calendar_agent_sync: the last three
output lines are taken as time, reason and duration; the time line must pass
timeFormatCheck and the duration line must parse as an integer, otherwise
the structured result is None. -/
def extract_structured (output_lines : List String) : Option StructuredDict :=
  match output_lines.reverse with
  | duration_line :: reason_line :: time_line :: _ =>
      let t := pyStrip time_line
      if timeFormatCheck t then
        match pyInt (pyStrip duration_line) with
        | some d => some { time := t, reason := pyStrip reason_line, duration_minutes := d }
        | none => none
      else none
  | _ => none

/-- run_calendar_agent_sync: runs the agent script in a subprocess; on exit
code 0 it parses the trailing lines into a structured dict and returns the
stripped stdout as the response text; on a nonzero exit code or an exception
it returns an error message and no structured result. Never raises. -/
def run_calendar_agent_sync (sub : Except String SubprocessResult) :
    String × Option StructuredDict :=
  match sub with
  | Except.error e => ("システムエラー: " ++ e, none)
  | Except.ok r =>
      if r.returncode == 0 then
        (pyStrip r.stdout, extract_structured (pySplit (pyStrip r.stdout) '\n'))
      else
        ("エラーが発生しました: " ++ r.stderr, none)

/- ===== Flutter workout-time endpoints (app.py) ===== -/

/-- The response shape of the /workout-time endpoints. -/
structure WorkoutTimeResponse where
  time : String
  success : Bool
  deriving DecidableEq, Repr

/-- Body of GET /workout-time: run the agent subprocess on the fixed query;
if a structured dict with a time was recovered, return it with success true,
otherwise return the fallback 18:00 with success false. -/
def get_workout_time_body (sub : Except String SubprocessResult) : WorkoutTimeResponse :=
  match (run_calendar_agent_sync sub).2 with
  | some d => { time := d.time, success := true }
  | none => { time := "18:00", success := false }

/-- The surrounding try/except of GET /workout-time: any exception raised by
the body is converted into the fallback response. -/
def get_workout_time (body : Except String WorkoutTimeResponse) : WorkoutTimeResponse :=
  match body with
  | Except.ok r => r
  | Except.error _ => { time := "18:00", success := false }

/-- Body of GET /workout-time/tomorrow: identical control flow to
get_workout_time_body, run on the tomorrow query. -/
def get_tomorrow_workout_time_body (sub : Except String SubprocessResult) :
    WorkoutTimeResponse :=
  match (run_calendar_agent_sync sub).2 with
  | some d => { time := d.time, success := true }
  | none => { time := "18:00", success := false }

/-- The surrounding try/except of GET /workout-time/tomorrow. -/
def get_tomorrow_workout_time (body : Except String WorkoutTimeResponse) :
    WorkoutTimeResponse :=
  match body with
  | Except.ok r => r
  | Except.error _ => { time := "18:00", success := false }

/- ===== Structured extraction with retry (app.py POST /workout-schedule) ===== -/

/-- An HTTP error as raised by the endpoint. -/
structure HTTPExceptionModel where
  status_code : Int
  detail : String
  deriving DecidableEq, Repr

/-- POST /workout-schedule: execute_calendar_query makes the first
schema-constrained extraction attempt (attempts 0; an exception there is
caught and yields no structured result); when it produced nothing the
endpoint retries once with an alternative prompt framing (attempts 1); when
the retry also fails it raises HTTP 500. Returns the endpoint outcome and
the number of extraction calls made. -/
def get_workout_schedule (attempts : Nat → Except String WorkoutTimeSlot) :
    Except HTTPExceptionModel WorkoutTimeSlot × Nat :=
  match attempts 0 with
  | Except.ok slot => (Except.ok slot, 1)
  | Except.error _ =>
      match attempts 1 with
      | Except.ok slot => (Except.ok slot, 2)
      | Except.error _ =>
          (Except.error { status_code := 500, detail := "筋トレスケジュールの生成に失敗しました" }, 2)

/- ===== Readiness polling (main.py wait_until_ready) ===== -/

/-- wait_until_ready's polling loop, with time in milliseconds. Each round
first re-checks elapsed < timeout, then issues the probe (whose own duration
is cost elapsed, bounded by its 1000 ms request timeout), then sleeps the
fixed 1000 ms interval. A successful probe returns true immediately; once
the timeout has elapsed the loop returns false without raising (probe
exceptions are swallowed by the except clause). The second component is the
total wall time consumed. -/
def wait_until_ready_loop (probe : Nat → Bool) (cost : Nat → Nat) (timeout : Nat)
    (elapsed : Nat) : Bool × Nat :=
  if h : elapsed < timeout then
    if probe elapsed then (true, elapsed + cost elapsed)
    else wait_until_ready_loop probe cost timeout (elapsed + cost elapsed + 1000)
  else (false, elapsed)
termination_by timeout - elapsed
decreasing_by omega

/-- wait_until_ready: run the polling loop from elapsed time zero. -/
def wait_until_ready (probe : Nat → Bool) (cost : Nat → Nat) (timeout : Nat) : Bool × Nat :=
  wait_until_ready_loop probe cost timeout 0

/- ===== Process supervision (main.py) ===== -/

/-- The state of an owned provider process: whether it is still running and
whether it honours a graceful terminate within the 5-second grace period. -/
structure ProcState where
  running : Bool
  respondsToTerminate : Bool
  deriving DecidableEq, Repr

/-- Which signals the shutdown path sent. -/
structure ShutdownLog where
  terminateSent : Bool
  killSent : Bool
  deriving DecidableEq, Repr

/-- The finally-block of main: if proc is None (the server was already
running and we never spawned it) nothing is sent; otherwise terminate() is
sent, wait(timeout=5) is awaited, and on expiry kill() is sent. Returns the
signal log and the final state of the owned process, if any. -/
def shutdown (proc : Option ProcState) : ShutdownLog × Option ProcState :=
  match proc with
  | none => ({ terminateSent := false, killSent := false }, none)
  | some p =>
      let afterTerm := if p.respondsToTerminate then { p with running := false } else p
      if afterTerm.running then
        ({ terminateSent := true, killSent := true }, some { afterTerm with running := false })
      else
        ({ terminateSent := true, killSent := false }, some afterTerm)

/-- The launch command (the non-Windows branch of main.py). -/
def NODE_CMD : List String := ["npm", "start"]

/-- What start_mcp_server passes to subprocess.Popen: command, working
directory, and the environment overlay (PORT, plus the OAuth credential
path when gcp-oauth.keys.json exists in the repo). -/
structure SpawnRequest where
  cmd : List String
  cwd : String
  envPORT : String
  envGoogleOauth : Option String
  deriving DecidableEq, Repr

/-- A provider handle: nonOwned when the server was already running before
this run; owned (with the spawn that created it) when this run started it. -/
inductive ProviderHandle where
  | nonOwned
  | owned (spawn : SpawnRequest)
  deriving DecidableEq, Repr

/-- is_server_running: a GET of the base URL; status 200 means running; a
RequestException (modelled as none) means not running. -/
def is_server_running (probeStatus : Option Nat) : Bool :=
  match probeStatus with
  | some code => code == 200
  | none => false

/-- start_mcp_server: fatal before any spawn when the repo directory is
missing; otherwise spawn NODE_CMD in the repo directory with the PORT and
(conditionally) GOOGLE_OAUTH_CREDENTIALS environment entries. -/
def start_mcp_server (repoExists : Bool) (repo : String) (port : Nat)
    (oauthKeyExists : Bool) : Except String SpawnRequest :=
  if repoExists then
    Except.ok { cmd := NODE_CMD, cwd := repo, envPORT := toString port,
                envGoogleOauth :=
                  if oauthKeyExists then some (repo ++ "/gcp-oauth.keys.json") else none }
  else
    Except.error ("MCP repo not found at " ++ repo)

/-- The startup phase of main: if the readiness probe already answers, keep
proc = None (non-owned, zero spawns); otherwise launch via start_mcp_server
and wait for readiness, exiting on failure. The Nat is the spawn count. -/
def ensure_running (probeStatus : Option Nat) (repoExists : Bool) (repo : String)
    (port : Nat) (oauthKeyExists : Bool) (becomesReady : Bool) :
    Except String (ProviderHandle × Nat) :=
  if is_server_running probeStatus then
    Except.ok (ProviderHandle.nonOwned, 0)
  else
    match start_mcp_server repoExists repo port oauthKeyExists with
    | Except.ok s =>
        if becomesReady then Except.ok (ProviderHandle.owned s, 1)
        else Except.error "MCP server failed to start within timeout."
    | Except.error e => Except.error e

/- ===== Tool cache (app.py get_tools), sequential behaviour ===== -/

/-- One call to get_tools: when the cache is filled it is returned with no
init_tools invocation; when empty, init_tools runs (third component true):
on success its result is returned and cached, on failure nothing is cached
and the error is re-raised. -/
def get_tools_step (cache : Option (List McpTool))
    (init : Except String (List McpTool)) :
    Except String (List McpTool) × Option (List McpTool) × Bool :=
  match cache with
  | some ts => (Except.ok ts, some ts, false)
  | none =>
      match init with
      | Except.ok ts => (Except.ok ts, some ts, true)
      | Except.error e => (Except.error e, none, true)

/-- A sequence of get_tools calls threading the module-level cache; each
entry of the trace records the call's outcome and whether init_tools ran. -/
def get_tools_trace (inits : List (Except String (List McpTool)))
    (cache : Option (List McpTool)) :
    List (Except String (List McpTool) × Bool) × Option (List McpTool) :=
  match inits with
  | [] => ([], cache)
  | init :: rest =>
      let r := get_tools_step cache init
      let t := get_tools_trace rest r.2.1
      ((r.1, r.2.2) :: t.1, t.2)

/- ===== Concurrent get_tools callers (app.py, C5 model) ===== -/

/-- The phases of one async get_tools caller: ready (about to test the
cache), initializing (suspended inside await init_tools, having already
passed the None check), or finished with a result. -/
inductive TaskState where
  | ready
  | initializing
  | finished (result : List McpTool)
  deriving DecidableEq, Repr

/-- The shared module state plus the two callers: the _tools_cache global,
the number of init_tools invocations started (each spawns the providers and
performs the handshakes), and each task's phase. -/
structure RegistryState where
  cache : Option (List McpTool)
  initCount : Nat
  task1 : TaskState
  task2 : TaskState
  deriving DecidableEq, Repr

/-- One step of one caller. In ready phase the caller tests the cache: if
filled it finishes with the cached list, otherwise it enters init_tools
(incrementing the invocation count) — exactly the unguarded check-then-act
of get_tools, whose await point lets another caller run in between. In
initializing phase the init completes, writes the cache and finishes. -/
def taskStep (tools : List McpTool) (cache : Option (List McpTool)) (count : Nat)
    (t : TaskState) : Option (List McpTool) × Nat × TaskState :=
  match t with
  | TaskState.ready =>
      match cache with
      | some ts => (some ts, count, TaskState.finished ts)
      | none => (none, count + 1, TaskState.initializing)
  | TaskState.initializing => (some tools, count, TaskState.finished tools)
  | TaskState.finished r => (cache, count, TaskState.finished r)

/-- Run one scheduler step: true steps task1, false steps task2. -/
def schedStep (tools : List McpTool) (s : RegistryState) (who : Bool) : RegistryState :=
  if who then
    let r := taskStep tools s.cache s.initCount s.task1
    { s with cache := r.1, initCount := r.2.1, task1 := r.2.2 }
  else
    let r := taskStep tools s.cache s.initCount s.task2
    { s with cache := r.1, initCount := r.2.1, task2 := r.2.2 }

/-- Run a whole interleaving schedule. -/
def runSchedule (tools : List McpTool) (schedule : List Bool) (s : RegistryState) :
    RegistryState :=
  schedule.foldl (schedStep tools) s

/-- Both callers start with an empty cache. -/
def initialRegistry : RegistryState :=
  { cache := none, initCount := 0, task1 := TaskState.ready, task2 := TaskState.ready }

/- ===== Helper lemmas ===== -/

/-- Once the elapsed time reaches the timeout, the polling loop stops with
false. -/
lemma wur_stop (probe : Nat → Bool) (cost : Nat → Nat) (timeout elapsed : Nat)
    (h : ¬ elapsed < timeout) :
    wait_until_ready_loop probe cost timeout elapsed = (false, elapsed) := by
  rw [wait_until_ready_loop]
  simp [h]

/-- A failed probe within the window advances the loop by the probe's cost
plus the fixed 1000 ms sleep. -/
lemma wur_poll (probe : Nat → Bool) (cost : Nat → Nat) (timeout elapsed : Nat)
    (h : elapsed < timeout) (hp : probe elapsed = false) :
    wait_until_ready_loop probe cost timeout elapsed =
      wait_until_ready_loop probe cost timeout (elapsed + cost elapsed + 1000) := by
  rw [wait_until_ready_loop]
  simp [h, hp]

/-- For a probe that never succeeds and whose individual attempts respect
their 1000 ms request timeout, the loop returns false and consumes at most
timeout + 2000 ms of wall time. -/
lemma wur_bound (probe : Nat → Bool) (cost : Nat → Nat) (timeout : Nat)
    (hp : ∀ t, probe t = false) (hc : ∀ t, cost t ≤ 1000) (elapsed : Nat)
    (he : elapsed ≤ timeout + 2000) :
    (wait_until_ready_loop probe cost timeout elapsed).1 = false ∧
    (wait_until_ready_loop probe cost timeout elapsed).2 ≤ timeout + 2000 := by
  by_cases h : elapsed < timeout
  · rw [wur_poll probe cost timeout elapsed h (hp elapsed)]
    exact wur_bound probe cost timeout hp hc (elapsed + cost elapsed + 1000)
      (by have := hc elapsed; omega)
  · rw [wur_stop probe cost timeout elapsed h]
    exact ⟨rfl, he⟩
termination_by timeout - elapsed
decreasing_by omega

/-- While the cache stays filled, every get_tools call in a sequence returns
the cached list without running init_tools, and the cache is unchanged. -/
lemma get_tools_trace_cached (ts : List McpTool) :
    ∀ inits : List (Except String (List McpTool)),
      (get_tools_trace inits (some ts)).1 =
        inits.map (fun _ => (Except.ok ts, false)) ∧
      (get_tools_trace inits (some ts)).2 = some ts
  | [] => ⟨rfl, rfl⟩
  | i :: rest => by
      have ih := get_tools_trace_cached ts rest
      simp [get_tools_trace, get_tools_step, ih.1, ih.2]

/- ===== Claim theorems ===== -/

/-- Claim C1, counterexample: when the providers together advertise two
tools that share the (non-excluded) name "a", the list init_tools returns
still contains both, so the post-filter list is not duplicate-free — the
filter deduplicates nothing. -/
theorem C1_counterexample :
    ¬ (((init_tools [{ name := "a" }, { name := "a" }]).map McpTool.name).Nodup) := by
  decide

/-- Claim C1 (amended): for every tool set returned by the providers, the
list returned by init_tools contains no tool whose name is in the fixed
exclusion list; and it contains no two tools with the same name whenever
the providers' combined tool set itself had no duplicate names (filtering
removes excluded names but performs no deduplication of its own). -/
theorem C1_amended (all_tools : List McpTool) :
    (∀ t ∈ init_tools all_tools, t.name ∉ excluded_tools) ∧
    ((all_tools.map McpTool.name).Nodup →
      ((init_tools all_tools).map McpTool.name).Nodup) := by
  constructor
  · intro t ht hmem
    have h := (List.mem_filter.mp ht).2
    simp at h
    exact h hmem
  · intro h
    exact h.sublist (List.Sublist.map McpTool.name (List.filter_sublist all_tools))

/-- Claim C1, witness: a duplicate-free provider tool set stays
duplicate-free after filtering. -/
theorem C1_witness :
    ((init_tools [{ name := "create-event" }, { name := "update-event" }]).map
      McpTool.name).Nodup :=
  (C1_amended [{ name := "create-event" }, { name := "update-event" }]).2 (by decide)

/-- Claim C2, counterexample: a subprocess run that exits 0 with trailing
output lines "99:99", "reason", "60" passes run_calendar_agent_sync's weak
colon check, and GET /workout-time hands the caller a structured result
whose time "99:99" does not match the 24-hour pattern. -/
theorem C2_counterexample :
    (get_workout_time (Except.ok (get_workout_time_body
      (Except.ok { returncode := 0, stdout := "99:99\nreason\n60", stderr := "" })))) =
      { time := "99:99", success := true } ∧
    matchesTimePattern "99:99" = false := by
  decide

/-- Claim C2 (amended): every WorkoutTimeSlot accepted by the pydantic
model's validation has a time matching the 24-hour pattern and a
duration_minutes of 60 when the extraction call does not specify one; but
structured results recovered from subprocess output positions only check
that the time line contains a single colon, so the workout-time endpoints
can hand the caller a time that fails the pattern. -/
theorem C2_amended (time reason : String) (dur : Option Int) (slot : WorkoutTimeSlot)
    (h : WorkoutTimeSlot.model_validate time reason dur = some slot) :
    matchesTimePattern slot.time = true ∧ (dur = none → slot.duration_minutes = 60) := by
  by_cases hm : matchesTimePattern time = true
  · rw [WorkoutTimeSlot.model_validate, if_pos hm] at h
    obtain rfl :
        ({ time := time, reason := reason, duration_minutes := dur.getD 60 } :
          WorkoutTimeSlot) = slot := by
      injection h
    refine ⟨hm, ?_⟩
    rintro rfl
    rfl
  · rw [WorkoutTimeSlot.model_validate, if_neg hm] at h
    cases h

/-- Claim C2, witness: a concrete validated slot with unspecified duration
matches the pattern and gets the default 60 minutes. -/
theorem C2_witness :
    matchesTimePattern
      ({ time := "18:00", reason := "r", duration_minutes := 60 } : WorkoutTimeSlot).time
        = true ∧
    ((none : Option Int) = none →
      ({ time := "18:00", reason := "r", duration_minutes := 60 } :
        WorkoutTimeSlot).duration_minutes = 60) :=
  C2_amended "18:00" "r" none _ (by decide)

/-- Claim C3, counterexample: when both the first extraction attempt and
the single retry fail, POST /workout-schedule raises HTTP 500 — it returns
an error to the end user, not a fixed fallback time slot. -/
theorem C3_counterexample :
    (get_workout_schedule (fun _ => Except.error "fail")).1 =
      Except.error
        { status_code := 500, detail := "筋トレスケジュールの生成に失敗しました" } := rfl

/-- Claim C3 (amended): when the schema-constrained extraction fails, the
workout-schedule endpoint retries exactly once with an alternative prompt
framing (never more than two extraction calls); when the retry also fails
it propagates an HTTP 500 error to the end user, while the workout-time
endpoints (which make no retry) are the ones that substitute the fixed
18:00 fallback slot instead of an error. -/
theorem C3_amended (attempts : Nat → Except String WorkoutTimeSlot) :
    (get_workout_schedule attempts).2 ≤ 2 ∧
    (∀ slot, attempts 0 = Except.ok slot →
      get_workout_schedule attempts = (Except.ok slot, 1)) ∧
    (∀ e slot, attempts 0 = Except.error e → attempts 1 = Except.ok slot →
      get_workout_schedule attempts = (Except.ok slot, 2)) ∧
    (∀ e e2, attempts 0 = Except.error e → attempts 1 = Except.error e2 →
      get_workout_schedule attempts =
        (Except.error
          { status_code := 500, detail := "筋トレスケジュールの生成に失敗しました" }, 2)) ∧
    (∀ sub, (run_calendar_agent_sync sub).2 = none →
      get_workout_time (Except.ok (get_workout_time_body sub)) =
        { time := "18:00", success := false }) := by
  refine ⟨?_, ?_, ?_, ?_, ?_⟩
  · unfold get_workout_schedule
    rcases h0 : attempts 0 with e | s
    · rcases h1 : attempts 1 with e2 | s2 <;> simp
    · simp
  · intro slot h0
    unfold get_workout_schedule
    rw [h0]
  · intro e slot h0 h1
    unfold get_workout_schedule
    rw [h0, h1]
  · intro e e2 h0 h1
    unfold get_workout_schedule
    rw [h0, h1]
  · intro sub h
    unfold get_workout_time get_workout_time_body
    rw [h]

/-- Claim C3, witness: with both extraction attempts failing, the endpoint
makes two calls in total and returns the 500 error. -/
theorem C3_witness :
    get_workout_schedule (fun _ => Except.error "e") =
      (Except.error
        { status_code := 500, detail := "筋トレスケジュールの生成に失敗しました" }, 2) :=
  (C3_amended (fun _ => Except.error "e")).2.2.2.1 "e" "e" rfl rfl

/-- Claim C4, counterexample: with timeout 1500 ms and a never-succeeding
probe whose second attempt uses its full 1000 ms request timeout, the loop
finishes only after 3000 ms — more than timeout plus one 1000 ms poll
interval. -/
theorem C4_counterexample :
    (wait_until_ready (fun _ => false) (fun t => if t == 0 then 0 else 1000) 1500).2 = 3000 ∧
    1500 + 1000 < 3000 := by
  constructor
  · show (wait_until_ready_loop _ _ 1500 0).2 = 3000
    rw [wur_poll _ _ 1500 0 (by omega) rfl]
    norm_num
    rw [wur_poll _ _ 1500 1000 (by omega) rfl]
    norm_num
    rw [wur_stop _ _ 1500 3000 (by omega)]
  · norm_num

/-- Claim C4 (amended): for a readiness probe that never succeeds,
wait_until_ready polls at the fixed 1-second interval and returns false
(never raising) once the timeout elapses; its total wall time never exceeds
timeout plus one poll interval plus the probe's own 1-second request
timeout (it can exceed timeout plus one poll interval alone). -/
theorem C4_amended (probe : Nat → Bool) (cost : Nat → Nat) (timeout : Nat)
    (hp : ∀ t, probe t = false) (hc : ∀ t, cost t ≤ 1000) :
    (wait_until_ready probe cost timeout).1 = false ∧
    (wait_until_ready probe cost timeout).2 ≤ timeout + 1000 + 1000 := by
  have h := wur_bound probe cost timeout hp hc 0 (by omega)
  simpa [wait_until_ready] using h

/-- Claim C4, witness: a probe that always fails instantly, with the
default 30-second timeout. -/
theorem C4_witness :
    (wait_until_ready (fun _ => false) (fun _ => 0) 30000).1 = false ∧
    (wait_until_ready (fun _ => false) (fun _ => 0) 30000).2 ≤ 30000 + 1000 + 1000 :=
  C4_amended (fun _ => false) (fun _ => 0) 30000 (fun _ => rfl) (fun _ => Nat.zero_le 1000)

/-- Claim C5, counterexample: an interleaving in which both callers pass
get_tools's empty-cache check before the first initialization completes
makes both run init_tools — two provider spawns and handshakes, not one —
even though both callers complete. -/
theorem C5_counterexample :
    (runSchedule [{ name := "a" }] [true, false, true, false] initialRegistry).initCount
        = 2 ∧
    (runSchedule [{ name := "a" }] [true, false, true, false] initialRegistry).task1 =
      TaskState.finished [{ name := "a" }] ∧
    (runSchedule [{ name := "a" }] [true, false, true, false] initialRegistry).task2 =
      TaskState.finished [{ name := "a" }] := by
  decide

/-- Claim C5 (amended): get_tools has no initialization guard. A caller
whose cache check happens after a previous initialization completed shares
the cached result, for exactly one init_tools run in total; but two callers
that both pass the empty-cache check before the first initialization
completes each run init_tools, duplicating the provider spawns and
handshakes. -/
theorem C5_amended (tools : List McpTool) :
    runSchedule tools [true, true, false] initialRegistry =
      { cache := some tools, initCount := 1, task1 := TaskState.finished tools,
        task2 := TaskState.finished tools } ∧
    (runSchedule tools [true, false, true, false] initialRegistry).initCount = 2 := by
  exact ⟨rfl, rfl⟩

/-- Claim C6: the finally-block shutdown sends no terminate (and no kill)
when no process is owned; for an owned process it always sends the graceful
terminate, the process is no longer running afterwards, and when the
process ignores the graceful signal past the grace period the force-kill
path is exercised. -/
theorem C6_theorem (p : ProcState) :
    (shutdown none).1.terminateSent = false ∧
    (shutdown none).1.killSent = false ∧
    (shutdown (some p)).1.terminateSent = true ∧
    (shutdown (some p)).2.map ProcState.running = some false ∧
    (p.running = true → p.respondsToTerminate = false →
      (shutdown (some p)).1.killSent = true) := by
  rcases p with ⟨r, t⟩
  cases r <;> cases t <;> decide

/-- Claim C6, witness: an owned process that ignores the graceful terminate
gets force-killed. -/
theorem C6_witness :
    (shutdown (some { running := true, respondsToTerminate := false })).1.killSent = true :=
  (C6_theorem { running := true, respondsToTerminate := false }).2.2.2.2 rfl rfl

/-- Claim C7: when the readiness probe already answers with status 200,
main keeps proc = None — a non-owned handle and no spawn; otherwise (repo
present, server becoming ready) it spawns NODE_CMD in the repo directory
with the PORT and OAuth-credential environment entries and holds an owned
handle, with exactly one spawn. -/
theorem C7_theorem (probeStatus : Option Nat) (repoExists : Bool) (repo : String)
    (port : Nat) (oauthKeyExists : Bool) (becomesReady : Bool) :
    (is_server_running probeStatus = true →
      ensure_running probeStatus repoExists repo port oauthKeyExists becomesReady =
        Except.ok (ProviderHandle.nonOwned, 0)) ∧
    (is_server_running probeStatus = false → repoExists = true → becomesReady = true →
      ensure_running probeStatus repoExists repo port oauthKeyExists becomesReady =
        Except.ok (ProviderHandle.owned
          { cmd := NODE_CMD, cwd := repo, envPORT := toString port,
            envGoogleOauth :=
              if oauthKeyExists then some (repo ++ "/gcp-oauth.keys.json") else none },
          1)) := by
  constructor
  · intro h
    simp [ensure_running, h]
  · intro h hrepo hready
    subst hrepo
    subst hready
    simp [ensure_running, h, start_mcp_server]

/-- Claim C7, witness: no server answers the probe, so the launcher spawns
one owned provider with the configured command, directory and environment. -/
theorem C7_witness :
    ensure_running none true "/repo" 3333 true true =
      Except.ok (ProviderHandle.owned
        { cmd := NODE_CMD, cwd := "/repo", envPORT := toString 3333,
          envGoogleOauth := some ("/repo" ++ "/gcp-oauth.keys.json") }, 1) :=
  (C7_theorem none true "/repo" 3333 true true).2 rfl rfl rfl

/-- Claim C8: the first successful get_tools call runs init_tools and
caches its list; afterwards every later call in the same process returns
exactly that cached list with no further init_tools invocation (so no
re-spawned providers and no re-listing), leaving the cache unchanged. -/
theorem C8_theorem (inits : List (Except String (List McpTool))) (ts : List McpTool) :
    get_tools_step none (Except.ok ts) = (Except.ok ts, some ts, true) ∧
    (get_tools_trace inits (some ts)).1 = inits.map (fun _ => (Except.ok ts, false)) ∧
    (get_tools_trace inits (some ts)).2 = some ts :=
  ⟨rfl, (get_tools_trace_cached ts inits).1, (get_tools_trace_cached ts inits).2⟩

/-- Claim C9: a failed initialization caches nothing and re-raises the
error, and any get_tools call that still sees an empty cache runs
init_tools again from scratch rather than serving a partial cache. -/
theorem C9_theorem (e : String) (init2 : Except String (List McpTool)) :
    get_tools_step none (Except.error e) = (Except.error e, none, true) ∧
    (get_tools_step none init2).2.2 = true := by
  refine ⟨rfl, ?_⟩
  cases init2 <;> rfl

/-- Claim C10: the workout-time endpoints are total — every execution
returns a WorkoutTimeResponse — and in each fallback case (subprocess
error, nonzero exit code, no structured result with a time, or an exception
inside the handler) the response is exactly time "18:00" with success
false. -/
theorem C10_theorem (sub : Except String SubprocessResult) (e : String) :
    ((run_calendar_agent_sync sub).2 = none →
      get_workout_time (Except.ok (get_workout_time_body sub)) =
          { time := "18:00", success := false } ∧
      get_tomorrow_workout_time (Except.ok (get_tomorrow_workout_time_body sub)) =
          { time := "18:00", success := false }) ∧
    (∀ err, sub = Except.error err → (run_calendar_agent_sync sub).2 = none) ∧
    (∀ r, sub = Except.ok r → ¬ r.returncode = 0 →
      (run_calendar_agent_sync sub).2 = none) ∧
    get_workout_time (Except.error e) = { time := "18:00", success := false } ∧
    get_tomorrow_workout_time (Except.error e) = { time := "18:00", success := false } := by
  refine ⟨?_, ?_, ?_, rfl, rfl⟩
  · intro h
    constructor
    · unfold get_workout_time get_workout_time_body
      rw [h]
    · unfold get_tomorrow_workout_time get_tomorrow_workout_time_body
      rw [h]
  · rintro err rfl
    rfl
  · rintro r rfl h
    simp [run_calendar_agent_sync, h]

/-- Claim C10, witness: a failing subprocess and a handler exception both
yield the 18:00 / success-false fallback response. -/
theorem C10_witness :
    get_workout_time (Except.ok (get_workout_time_body (Except.error "boom"))) =
        { time := "18:00", success := false } ∧
    get_workout_time (Except.error "x") = { time := "18:00", success := false } :=
  ⟨((C10_theorem (Except.error "boom") "x").1 rfl).1,
    (C10_theorem (Except.error "boom") "x").2.2.2.1⟩
